import Mathlib

/-!
# cloud-event-proxy: outbound dispatcher and inbound fallback loop

A shallow embedding of `ProcessOutChannel`, `ProcessInChannel` and
`cleanupConfigMap` of `cmd/main.go`.

* One iteration of a `for { select { ... } }` loop is a function on an explicit
  state; the loop is a left fold over the messages taken from the queue.
* Every call into a collaborator (registry, REST client, metrics, store) is
  recorded, in program order, in a trace.  Log statements are not recorded.
* The answers of the collaborators are the fields of `Env`; each dequeued
  message is paired with the `Env` that holds while it is processed.
* A dereference of a nil pointer is the error result `GoPanic.nilDereference`.
-/

namespace CloudEventProxy

/-! ## Data model -/

/-- The Go type `uuid.UUID`, an opaque identifier. -/
abbrev UUID := Nat

/-- The Go type `channel.Type`. -/
inductive ChannelType where
  | SUBSCRIBER
  | PUBLISHER
  | EVENT
  | STATUS
  deriving DecidableEq, Repr

/-- The Go type `channel.Status`. -/
inductive Status where
  | NEW
  | SUCCESS
  | DELETE
  | FAILED
  deriving DecidableEq, Repr

/-- The Go type `localmetrics.MetricStatus`. -/
inductive MetricStatus where
  | SUCCESS
  | FAILED
  deriving DecidableEq, Repr

/-- The Go type `storageClient.StorageTypeType`. -/
inductive StorageType where
  | EmptyDir
  | ConfigMap
  deriving DecidableEq, Repr

/-- The Go type `cloudevents.Event`: the raw payload carried in `DataChan.Data`.
`ID` is the identifier of the event, `Body` the bytes it carries. -/
structure CloudEvent where
  ID : String
  Body : String
  deriving DecidableEq, Repr

/-- The Go type `event.Event` of the sdk: what `GetCloudNativeEvents` decodes a
payload into. -/
structure Event where
  ID : String
  Body : String
  deriving DecidableEq, Repr

/-- The Go type `pubsub.PubSub`: a publisher or a legacy subscription. -/
structure PubSub where
  ID : String
  EndPointURI : Option String
  Resource : String
  deriving DecidableEq, Repr

/-- The Go type `subscriber.Subscriber`, the record written to the store. -/
structure Subscriber where
  ClientID : UUID
  EndPointURI : Option String
  Action : Status
  deriving DecidableEq, Repr

/-- A Go `error` returned by the REST client, seen through the three tests the
dispatcher applies to it: `errors.As(err, &dnsError)`, `os.IsTimeout(err)` and
`errors.Is(err, syscall.ECONNREFUSED)`. -/
structure NetError where
  asDNSError : Bool
  isTimeout : Bool
  isConnRefused : Bool
  deriving DecidableEq, Repr

/-- The fields of `channel.DataChan` that the loops read or write on the
message they synthesize.  `Data` is a pointer: `none` is nil. A callback
returns `some msg` for an error and `none` for nil. -/
structure DataChanBody where
  Address : String
  ClientID : UUID
  Data : Option CloudEvent
  Status : Status
  Typ : ChannelType
  ProcessEventFn : Option (Event → Option String)

/-- The Go type `channel.DataChan`.  `OnReceiveOverrideFn` receives the payload
and a pointer to the synthesized message; it returns the message as it left it
and its error. -/
structure DataChan extends DataChanBody where
  OnReceiveOverrideFn : Option (CloudEvent → DataChanBody → DataChanBody × Option String)

/-- A Go run-time panic. -/
inductive GoPanic where
  | nilDereference
  deriving DecidableEq, Repr

/-! ## Collaborators -/

/-- A call into a collaborator. -/
inductive Effect where
  | ProcessEventFn (event : Event)
  | HasPublisher (address : String)
  | HasSubscription (address : String)
  | GetClientIDAddressByResource (address : String)
  | IncFailCountToFail (clientID : UUID)
  | ResetFailCount (clientID : UUID)
  | FailCountThreshold
  | GetFailCount (clientID : UUID)
  | DeleteAllSubscriptionsForClient (clientID : UUID)
  | Post (uri : String) (eventId : String) (status : Status)
  | PostEvent (uri : String) (event : Event)
  | PostCloudEvent (uri : String) (data : CloudEvent)
  | UpdateEventReceivedCount (address : String) (status : MetricStatus)
  | UpdateEventAckCount (address : String) (status : MetricStatus)
  | UpdateStatusAckCount (address : String) (status : MetricStatus)
  | UpdateSubscriptionCount (delta : Int)
  | UpdateConfigMap (records : List Subscriber)
  deriving DecidableEq, Repr

/-- The answers of the collaborators while one message is processed.  The
results of `restClient.Post` and of `UpdateConfigMap` are only logged by the
dispatcher and have no field here. `uuidNew n` is the string of the `n`-th
identifier drawn from `uuid.New()`. -/
structure Env where
  StorageType : StorageType
  GetCloudNativeEvents : CloudEvent → Option Event
  Unmarshal : CloudEvent → Option Subscriber
  HasPublisher : String → Option PubSub
  HasSubscription : String → Option PubSub
  GetClientIDAddressByResource : String → List (UUID × Option String)
  DeleteAllSubscriptionsForClient : UUID → Int × Option String
  PostEvent : String → Event → Option NetError
  PostCloudEvent : String → CloudEvent → Int × Option NetError
  uuidNew : Nat → String

/-- The state the dispatcher works on: the failure counters and threshold kept
by the subscriber registry, the number of identifiers drawn so far, and the
trace of collaborator calls.  A call made inside the fan-out loop is recorded
with the subscriber (the range variable `clientID`) being served. -/
structure World where
  failCount : UUID → Nat
  threshold : Nat
  uuidSeed : Nat
  trace : List (Option UUID × Effect)

/-- Record a call. -/
def World.emit (w : World) (tag : Option UUID) (e : Effect) : World :=
  { w with trace := w.trace ++ [(tag, e)] }

/-- Modelled from the spec: `SubscriberAPI.IncFailCountToFail` of the sdk
registry, which is not part of this repository: it increments the counter of
the client and reports whether the counter has reached the threshold. -/
def IncFailCountToFail (w : World) (tag : Option UUID) (clientID : UUID) : World × Bool :=
  let n := w.failCount clientID + 1
  ({ w.emit tag (.IncFailCountToFail clientID) with
      failCount := fun c => if c = clientID then n else w.failCount c },
   decide (w.threshold ≤ n))

/-- Modelled from the spec: `SubscriberAPI.ResetFailCount` of the sdk registry:
the counter of the client becomes zero. -/
def ResetFailCount (w : World) (tag : Option UUID) (clientID : UUID) : World :=
  { w.emit tag (.ResetFailCount clientID) with
      failCount := fun c => if c = clientID then 0 else w.failCount c }

/-- Modelled from the spec: `SubscriberAPI.DeleteAllSubscriptionsForClient` of
the sdk registry: it answers the number removed and an error; the counter of the
client is destroyed on success and left as it is on failure. -/
def DeleteAllSubscriptionsForClient (env : Env) (w : World) (tag : Option UUID)
    (clientID : UUID) : World × Int × Option String :=
  let r := env.DeleteAllSubscriptionsForClient clientID
  let w1 := w.emit tag (.DeleteAllSubscriptionsForClient clientID)
  match r.2 with
  | some err => (w1, r.1, some err)
  | none =>
    ({ w1 with failCount := fun c => if c = clientID then 0 else w.failCount c }, r.1, none)

/-- The Go constant `http.StatusNoContent`. -/
def StatusNoContent : Int := 204

/-! ## The loops of `cmd/main.go` -/

/-- The function `cleanupConfigMap`: one store write with a single record whose
`Action` is `DELETE`; the other fields of the record keep their zero value. -/
def cleanupConfigMap (w : World) (tag : Option UUID) (clientID : UUID) : World :=
  let obj : Subscriber := { ClientID := clientID, EndPointURI := none, Action := .DELETE }
  w.emit tag (.UpdateConfigMap [obj])

/-- The closure `postProcessFn` of `ProcessOutChannel`. -/
def postProcessFn (env : Env) (w : World) (address : String) (status : Status) : World :=
  let w := w.emit none (.HasPublisher address)
  match env.HasPublisher address with
  | some pub =>
    let w :=
      if status = .SUCCESS then w.emit none (.UpdateEventAckCount address .SUCCESS)
      else w.emit none (.UpdateEventAckCount address .FAILED)
    match pub.EndPointURI with
    | some uri => w.emit none (.Post uri pub.ID status)
    | none => w
  | none => w

/-- The closure `postHandler` of `ProcessOutChannel`. -/
def postHandler (w : World) (err : Option NetError) (address : String) : World :=
  match err with
  | some _ => w.emit none (.UpdateEventReceivedCount address .FAILED)
  | none => w.emit none (.UpdateEventReceivedCount address .SUCCESS)

/-- The body of `for clientID, endPointURI := range eventSubscribers` in
`ProcessOutChannel`.  The loop state is the world and the local `event`. -/
def deliver (env : Env) (d : DataChan) (data : CloudEvent) (s : World × Event)
    (kv : UUID × Option String) : World × Event :=
  let clientID := kv.1
  let tag : Option UUID := some clientID
  match kv.2 with
  | some endPointURI =>
    -- event.ID = uuid.New().String()
    let event : Event := { s.2 with ID := env.uuidNew s.1.uuidSeed }
    let w : World := { s.1 with uuidSeed := s.1.uuidSeed + 1 }
    -- status, err = restClient.PostCloudEvent(endPointURI, *d.Data)
    let w := w.emit tag (.PostCloudEvent endPointURI data)
    let r := env.PostCloudEvent endPointURI data
    match r.2 with
    | some err =>
      let w := w.emit tag (.UpdateEventReceivedCount d.Address .FAILED)
      if err.asDNSError || err.isTimeout || err.isConnRefused then
        let p := IncFailCountToFail w tag clientID
        if p.2 then
          let q := DeleteAllSubscriptionsForClient env p.1 tag clientID
          let w :=
            match q.2.2 with
            | some _ => q.1
            | none => cleanupConfigMap q.1 tag d.ClientID
          (w.emit tag (.UpdateSubscriptionCount (-(q.2.1))), event)
        else
          -- the log line reads FailCountThreshold() and GetFailCount(clientID)
          ((p.1.emit tag .FailCountThreshold).emit tag (.GetFailCount clientID), event)
      else (w, event)
    | none =>
      let w := ResetFailCount w tag clientID
      if r.1 = StatusNoContent then
        (w.emit tag (.UpdateEventReceivedCount d.Address .SUCCESS), event)
      else
        (w.emit tag (.UpdateEventReceivedCount d.Address .FAILED), event)
  | none => s

/-- The range loop over `eventSubscribers`, in the order the map is iterated. -/
def fanOut (env : Env) (d : DataChan) (data : CloudEvent) (s : World × Event)
    (eventSubscribers : List (UUID × Option String)) : World × Event :=
  eventSubscribers.foldl (deliver env d data) s

/-- One iteration of the loop of `ProcessOutChannel`, for the message `d` taken
from `EventOutCh`. -/
def ProcessOutChannelStep (env : Env) (w : World) (d : DataChan) : World :=
  match d.Typ with
  | .EVENT =>
    match d.Data with
    | none => w
    | some data =>
      match env.GetCloudNativeEvents data with
      | none => w
      | some event =>
        if d.Status = .NEW then
          match d.ProcessEventFn with
          | some f =>
            let w := w.emit none (.ProcessEventFn event)
            match f event with
            | some _ => w.emit none (.UpdateEventReceivedCount d.Address .FAILED)
            | none => w
          | none =>
            let w := w.emit none (.HasSubscription d.Address)
            match env.HasSubscription d.Address with
            | some sub =>
              match sub.EndPointURI with
              | some uri =>
                let event : Event := { event with ID := sub.ID }
                let w := w.emit none (.PostEvent uri event)
                postHandler w (env.PostEvent uri event) d.Address
              | none => w.emit none (.UpdateEventReceivedCount d.Address .SUCCESS)
            | none =>
              let w := w.emit none (.GetClientIDAddressByResource d.Address)
              let eventSubscribers := env.GetClientIDAddressByResource d.Address
              if eventSubscribers.length ≠ 0 then
                (fanOut env d data (w, event) eventSubscribers).1
              else
                w.emit none (.UpdateEventReceivedCount d.Address .FAILED)
        else if d.Status = .SUCCESS ∨ d.Status = .FAILED then
          postProcessFn env w d.Address d.Status
        else w
  | .STATUS =>
    if d.Status = .SUCCESS then w.emit none (.UpdateStatusAckCount d.Address .SUCCESS)
    else w.emit none (.UpdateStatusAckCount d.Address .FAILED)
  | .SUBSCRIBER =>
    if env.StorageType ≠ .ConfigMap then w
    else
      match d.Status, d.Data with
      | .SUCCESS, some data =>
        match env.Unmarshal data with
        | none => w
        | some obj => w.emit none (.UpdateConfigMap [obj])
      | .DELETE, _ => cleanupConfigMap w none d.ClientID
      | _, _ => w
  | .PUBLISHER => w

/-- The loop of `ProcessOutChannel` over the messages taken from `EventOutCh`
before the close signal, each with the collaborators as they answer for it. -/
def ProcessOutChannel (w : World) (queue : List (Env × DataChan)) : World :=
  queue.foldl (fun w m => ProcessOutChannelStep m.1 w m.2) w

/-- The statement `if d.OnReceiveOverrideFn != nil { ... }` of
`ProcessInChannel`, applied to the synthesized message `out`.  The expression
`*d.Data` is evaluated only when the callback is set. -/
def applyOverride (d : DataChan) (out : DataChanBody) : Except GoPanic DataChanBody :=
  match d.OnReceiveOverrideFn with
  | none => .ok out
  | some f =>
    match d.Data with
    | none => .error .nilDereference
    | some data =>
      let r := f data out
      match r.2 with
      | some _ => .ok { r.1 with Status := .FAILED }
      | none => .ok { r.1 with Status := .SUCCESS }

/-- The composite literal `out := channel.DataChan{...}` of `ProcessInChannel`;
the fields it does not name keep their zero value. -/
def synthesize (d : DataChan) : DataChanBody :=
  { Address := d.Address, ClientID := 0, Data := d.Data, Status := .SUCCESS,
    Typ := .EVENT, ProcessEventFn := d.ProcessEventFn }

/-- One iteration of the loop of `ProcessInChannel`, for the message `d` taken
from `EventInCh`: the messages it sends on `EventOutCh`, or a panic.  The event
decoded from `*d.Data` in the `EVENT` branch is only logged. -/
def ProcessInChannelStep (d : DataChan) : Except GoPanic (List DataChanBody) :=
  if d.Typ = .SUBSCRIBER then .ok []
  else if d.Typ = .PUBLISHER then .ok []
  else if d.Typ = .EVENT ∧ d.Status = .NEW then
    -- v1event.GetCloudNativeEvents(*d.Data)
    match d.Data with
    | none => .error .nilDereference
    | some _ =>
      match applyOverride d (synthesize d) with
      | .error p => .error p
      -- scConfig.EventOutCh <- &out
      | .ok out => .ok [out]
  else if d.Typ = .STATUS ∧ d.Status = .NEW then
    match applyOverride d (synthesize d) with
    | .error p => .error p
    | .ok _ => .ok []
  else .ok []

/-- The loop of `ProcessInChannel` over the messages taken from `EventInCh`:
the messages sent on `EventOutCh`, in order.  A panic ends the loop. -/
def ProcessInChannel : List DataChan → Except GoPanic (List DataChanBody)
  | [] => .ok []
  | d :: rest =>
    match ProcessInChannelStep d with
    | .error p => .error p
    | .ok sent =>
      match ProcessInChannel rest with
      | .error p => .error p
      | .ok more => .ok (sent ++ more)

/-! ## Observations on a state -/

/-- The calls of a trace, without the subscriber they were made for. -/
def calls (tr : List (Option UUID × Effect)) : List Effect :=
  tr.map Prod.snd

/-- The calls made while the subscriber `c` was being served. -/
def clientCalls (c : UUID) (tr : List (Option UUID × Effect)) : List Effect :=
  (tr.filter (fun p => decide (p.1 = some c))).map Prod.snd

/-- A call of the REST delivery client. -/
def Effect.isRestCall : Effect → Bool
  | .Post _ _ _ => true
  | .PostEvent _ _ => true
  | .PostCloudEvent _ _ => true
  | _ => false

/-- A call that creates, increments or resets a failure counter. -/
def Effect.isCounterUpdate : Effect → Bool
  | .IncFailCountToFail _ => true
  | .ResetFailCount _ => true
  | _ => false

/-- A call that deletes subscriptions in the registry. -/
def Effect.isDeletion : Effect → Bool
  | .DeleteAllSubscriptionsForClient _ => true
  | _ => false

/-- The multi-subscriber lookup. -/
def Effect.isSubscriberLookup : Effect → Bool
  | .GetClientIDAddressByResource _ => true
  | _ => false

/-- An update of the active-subscription-count metric. -/
def Effect.isSubscriptionCount : Effect → Bool
  | .UpdateSubscriptionCount _ => true
  | _ => false

/-- The payload handed to `PostCloudEvent`, for such a call. -/
def Effect.postedCloudEvent : Effect → Option CloudEvent
  | .PostCloudEvent _ data => some data
  | _ => none

/-- The payloads handed to `PostCloudEvent`, in call order. -/
def postedCloudEvents (tr : List (Option UUID × Effect)) : List CloudEvent :=
  (calls tr).filterMap Effect.postedCloudEvent

/-- The records written to the Subscription Store, in call order. -/
def storeWrites (tr : List (Option UUID × Effect)) : List (List Subscriber) :=
  (calls tr).filterMap (fun e => match e with
    | .UpdateConfigMap records => some records
    | _ => none)

/-- What the dispatcher state shows about one client: its counter, the
threshold, the calls made while serving it, and how often its counter was
incremented and its subscriptions deleted. -/
def observe (c : UUID) (w : World) : Nat × Nat × List Effect × Nat × Nat :=
  (w.failCount c, w.threshold, clientCalls c w.trace,
    (calls w.trace).count (.IncFailCountToFail c),
    (calls w.trace).count (.DeleteAllSubscriptionsForClient c))

/-- The test `errors.As(err, &dnsError) || os.IsTimeout(err) ||
errors.Is(err, syscall.ECONNREFUSED)` of the dispatcher. -/
def NetError.isConnectivity (err : NetError) : Bool :=
  err.asDNSError || err.isTimeout || err.isConnRefused

/-- The message `d` with payload `data` takes the multi-subscriber branch of
`ProcessOutChannel`: a new event that decodes, without `ProcessEventFn` and
without legacy subscription; the subscribers found for its address form a map,
so no client occurs twice. -/
def MultiSubscriberPath (env : Env) (d : DataChan) (data : CloudEvent) : Prop :=
  d.Typ = .EVENT ∧ d.Status = .NEW ∧ d.Data = some data ∧
    (env.GetCloudNativeEvents data).isSome = true ∧ d.ProcessEventFn = none ∧
    env.HasSubscription d.Address = none ∧
    ((env.GetClientIDAddressByResource d.Address).map Prod.fst).Nodup

/-- The message takes the multi-subscriber branch and its delivery to the
client `c` fails with a connectivity error. -/
def ConnectivityFailureFor (c : UUID) (env : Env) (d : DataChan) : Prop :=
  ∃ (data : CloudEvent) (uri : String) (err : NetError),
    MultiSubscriberPath env d data ∧
    (c, some uri) ∈ env.GetClientIDAddressByResource d.Address ∧
    (env.PostCloudEvent uri data).2 = some err ∧ err.isConnectivity = true

/-- The calls of the legacy branch for the subscription `sub`. -/
def legacyCalls (env : Env) (d : DataChan) (event : Event) (sub : PubSub) :
    List (Option UUID × Effect) :=
  match sub.EndPointURI with
  | none =>
    [(none, .HasSubscription d.Address), (none, .UpdateEventReceivedCount d.Address .SUCCESS)]
  | some uri =>
    [(none, .HasSubscription d.Address),
     (none, .PostEvent uri { event with ID := sub.ID }),
     (none, .UpdateEventReceivedCount d.Address
        (if (env.PostEvent uri { event with ID := sub.ID }).isSome then .FAILED else .SUCCESS))]

/-! ## Concrete inputs -/

/-- A registry with no counter set, the given threshold and an empty trace. -/
def freshWorld (threshold : Nat) : World :=
  { failCount := fun _ => 0, threshold := threshold, uuidSeed := 0, trace := [] }

/-- A registry in which every client has failed five times. -/
def degradedWorld : World :=
  { failCount := fun _ => 5, threshold := 10, uuidSeed := 0, trace := [] }

/-- Collaborators that know no publisher and no subscriber and accept every
delivery with "no content". -/
def quietEnv : Env :=
  { StorageType := .ConfigMap
    GetCloudNativeEvents := fun ce => some { ID := ce.ID, Body := ce.Body }
    Unmarshal := fun _ => none
    HasPublisher := fun _ => none
    HasSubscription := fun _ => none
    GetClientIDAddressByResource := fun _ => []
    DeleteAllSubscriptionsForClient := fun _ => (0, none)
    PostEvent := fun _ _ => none
    PostCloudEvent := fun _ _ => (204, none)
    uuidNew := fun n => String.mk (List.replicate (n + 1) (Char.ofNat 117)) }

/-- Collaborators for which `/a` has a legacy subscription without endpoint. -/
def legacyEnv : Env :=
  { quietEnv with
    HasSubscription := fun _ => some { ID := "sub-1", EndPointURI := none, Resource := "/a" } }

/-- Collaborators for the scenario of two subscribers of `/a`: client 1 at
`http://u1` answers "no content", client 2 at `http://u2` refuses the
connection; the registry removes three subscriptions on deletion. -/
def refusingEnv : Env :=
  { quietEnv with
    GetClientIDAddressByResource := fun _ => [(1, some "http://u1"), (2, some "http://u2")]
    PostCloudEvent := fun uri _ =>
      if uri = "http://u1" then (204, none)
      else (0, some { asDNSError := false, isTimeout := false, isConnRefused := true })
    DeleteAllSubscriptionsForClient := fun _ => (3, none) }

/-- Collaborators as in `refusingEnv`, but client 2 fails with an error that is
none of DNS error, timeout and connection refused. -/
def transientEnv : Env :=
  { refusingEnv with
    PostCloudEvent := fun uri _ =>
      if uri = "http://u1" then (204, none)
      else (0, some { asDNSError := false, isTimeout := false, isConnRefused := false }) }

/-- A payload. -/
def samplePayload : CloudEvent := { ID := "evt-1", Body := "locked" }

/-- A new event for the address `/a`; its own `ClientID` is 7. -/
def newEvent : DataChan :=
  { Address := "/a", ClientID := 7, Data := some samplePayload, Status := .NEW,
    Typ := .EVENT, ProcessEventFn := none, OnReceiveOverrideFn := none }

/-- An event message without payload. -/
def nilDataEvent : DataChan :=
  { newEvent with Data := none }

/-- A status acknowledgement for the address `/a`. -/
def statusAck : DataChan :=
  { newEvent with Typ := .STATUS, Status := .SUCCESS }

/-- A new event whose override callback fails. -/
def newEventFailingOverride : DataChan :=
  { newEvent with OnReceiveOverrideFn := some (fun _ out => (out, some "boom")) }

/-! ## Traces -/

@[simp] theorem calls_append (a b : List (Option UUID × Effect)) :
    calls (a ++ b) = calls a ++ calls b := by
  simp [calls]

@[simp] theorem clientCalls_append (c : UUID) (a b : List (Option UUID × Effect)) :
    clientCalls c (a ++ b) = clientCalls c a ++ clientCalls c b := by
  simp [clientCalls]

@[simp] theorem calls_nil : calls [] = [] := rfl

@[simp] theorem calls_cons (t : Option UUID) (e : Effect) (tr : List (Option UUID × Effect)) :
    calls ((t, e) :: tr) = e :: calls tr := rfl

@[simp] theorem clientCalls_nil (c : UUID) : clientCalls c [] = [] := rfl

@[simp] theorem clientCalls_cons_self (c : UUID) (e : Effect)
    (tr : List (Option UUID × Effect)) :
    clientCalls c ((some c, e) :: tr) = e :: clientCalls c tr := by
  simp [clientCalls]

theorem clientCalls_cons_other (c k : UUID) (e : Effect) (tr : List (Option UUID × Effect))
    (h : k ≠ c) : clientCalls c ((some k, e) :: tr) = clientCalls c tr := by
  simp [clientCalls, h]

@[simp] theorem clientCalls_cons_none (c : UUID) (e : Effect)
    (tr : List (Option UUID × Effect)) :
    clientCalls c ((none, e) :: tr) = clientCalls c tr := by
  simp [clientCalls]

/-! ## One delivery of the fan-out loop -/

theorem deliver_other (env : Env) (d : DataChan) (data : CloudEvent) (s : World × Event)
    (c k : UUID) (ep : Option String) (h : k ≠ c) :
    observe c (deliver env d data s (k, ep)).1 = observe c s.1 := by
  have h2 : c ≠ k := fun e => h e.symm
  cases ep with
  | none => simp [deliver]
  | some uri =>
    simp only [deliver]
    cases hr : (env.PostCloudEvent uri data).2 with
    | none =>
      simp only []
      split <;>
        simp [observe, ResetFailCount, World.emit, clientCalls_cons_other, h, h2]
    | some err =>
      simp only []
      split
      · split
        · cases hq : (env.DeleteAllSubscriptionsForClient k).2 <;>
            simp [observe, IncFailCountToFail, DeleteAllSubscriptionsForClient, cleanupConfigMap,
              World.emit, clientCalls_cons_other, h, h2, hq]
        · simp [observe, IncFailCountToFail, World.emit, clientCalls_cons_other, h, h2]
      · simp [observe, World.emit, clientCalls_cons_other, h, h2]

theorem deliver_success (env : Env) (d : DataChan) (data : CloudEvent) (s : World × Event)
    (c : UUID) (uri : String) (k thr ni nd : Nat) (cc : List Effect)
    (hr : (env.PostCloudEvent uri data).2 = none)
    (ho : observe c s.1 = (k, thr, cc, ni, nd)) :
    observe c (deliver env d data s (c, some uri)).1 =
      (0, thr,
        cc ++ [.PostCloudEvent uri data, .ResetFailCount c,
          .UpdateEventReceivedCount d.Address
            (if (env.PostCloudEvent uri data).1 = StatusNoContent then .SUCCESS else .FAILED)],
        ni, nd) := by
  simp only [observe, Prod.mk.injEq] at ho
  obtain ⟨h1, h2, h3, h4, h5⟩ := ho
  simp only [deliver, hr]
  split <;> simp [observe, ResetFailCount, World.emit, h2, h3, h4, h5, *]

theorem deliver_transient (env : Env) (d : DataChan) (data : CloudEvent) (s : World × Event)
    (c : UUID) (uri : String) (err : NetError) (k thr ni nd : Nat) (cc : List Effect)
    (hr : (env.PostCloudEvent uri data).2 = some err) (hc : err.isConnectivity = false)
    (ho : observe c s.1 = (k, thr, cc, ni, nd)) :
    observe c (deliver env d data s (c, some uri)).1 =
      (k, thr,
        cc ++ [.PostCloudEvent uri data, .UpdateEventReceivedCount d.Address .FAILED],
        ni, nd) := by
  simp only [observe, Prod.mk.injEq] at ho
  obtain ⟨h1, h2, h3, h4, h5⟩ := ho
  simp only [NetError.isConnectivity] at hc
  simp [deliver, hr, hc, observe, World.emit, h1, h2, h3, h4, h5]

theorem deliver_degraded (env : Env) (d : DataChan) (data : CloudEvent) (s : World × Event)
    (c : UUID) (uri : String) (err : NetError) (k thr ni nd : Nat) (cc : List Effect)
    (hr : (env.PostCloudEvent uri data).2 = some err) (hc : err.isConnectivity = true)
    (hlt : k + 1 < thr) (ho : observe c s.1 = (k, thr, cc, ni, nd)) :
    observe c (deliver env d data s (c, some uri)).1 =
      (k + 1, thr,
        cc ++ [.PostCloudEvent uri data, .UpdateEventReceivedCount d.Address .FAILED,
          .IncFailCountToFail c, .FailCountThreshold, .GetFailCount c],
        ni + 1, nd) := by
  simp only [observe, Prod.mk.injEq] at ho
  obtain ⟨h1, h2, h3, h4, h5⟩ := ho
  simp only [NetError.isConnectivity] at hc
  have hnot : ¬ thr ≤ k + 1 := by omega
  simp [deliver, hr, hc, observe, IncFailCountToFail, World.emit, h1, h2, h3, h4, h5, hnot]

theorem deliver_condemned (env : Env) (d : DataChan) (data : CloudEvent) (s : World × Event)
    (c : UUID) (uri : String) (err : NetError) (k thr ni nd : Nat) (cc : List Effect)
    (hr : (env.PostCloudEvent uri data).2 = some err) (hc : err.isConnectivity = true)
    (hge : thr ≤ k + 1) (ho : observe c s.1 = (k, thr, cc, ni, nd)) :
    observe c (deliver env d data s (c, some uri)).1 =
      (if (env.DeleteAllSubscriptionsForClient c).2.isNone then 0 else k + 1, thr,
        cc ++ [.PostCloudEvent uri data, .UpdateEventReceivedCount d.Address .FAILED,
            .IncFailCountToFail c, .DeleteAllSubscriptionsForClient c] ++
          (if (env.DeleteAllSubscriptionsForClient c).2.isNone then
            [.UpdateConfigMap [{ ClientID := d.ClientID, EndPointURI := none, Action := .DELETE }]]
          else []) ++
          [.UpdateSubscriptionCount (-(env.DeleteAllSubscriptionsForClient c).1)],
        ni + 1, nd + 1) := by
  simp only [observe, Prod.mk.injEq] at ho
  obtain ⟨h1, h2, h3, h4, h5⟩ := ho
  simp only [NetError.isConnectivity] at hc
  cases hq : (env.DeleteAllSubscriptionsForClient c).2 <;>
    simp [deliver, hr, hc, observe, IncFailCountToFail, DeleteAllSubscriptionsForClient,
      cleanupConfigMap, World.emit, h1, h2, h3, h4, h5, hge, hq]

theorem deliver_posts_payload (env : Env) (d : DataChan) (data : CloudEvent)
    (s : World × Event) (kv : UUID × Option String) :
    postedCloudEvents (deliver env d data s kv).1.trace =
      postedCloudEvents s.1.trace ++ (if kv.2.isSome then [data] else []) := by
  obtain ⟨k, ep⟩ := kv
  cases ep with
  | none => simp [deliver]
  | some uri =>
    simp only [deliver]
    cases hr : (env.PostCloudEvent uri data).2 with
    | none =>
      simp only []
      split <;>
        simp [postedCloudEvents, ResetFailCount, World.emit, Effect.postedCloudEvent]
    | some err =>
      simp only []
      split
      · split
        · cases hq : (env.DeleteAllSubscriptionsForClient k).2 <;>
            simp [postedCloudEvents, IncFailCountToFail, DeleteAllSubscriptionsForClient,
              cleanupConfigMap, World.emit, Effect.postedCloudEvent, hq]
        · simp [postedCloudEvents, IncFailCountToFail, World.emit, Effect.postedCloudEvent]
      · simp [postedCloudEvents, World.emit, Effect.postedCloudEvent]

/-! ## The fan-out loop and the step -/

theorem fanOut_others (env : Env) (d : DataChan) (data : CloudEvent) (c : UUID)
    (subs : List (UUID × Option String)) (h : ∀ kv ∈ subs, kv.1 ≠ c) (s : World × Event) :
    observe c (fanOut env d data s subs).1 = observe c s.1 := by
  induction subs generalizing s with
  | nil => rfl
  | cons kv rest ih =>
    have hk : kv.1 ≠ c := h kv (List.mem_cons_self _ _)
    have hrest : ∀ x ∈ rest, x.1 ≠ c := fun x hx => h x (List.mem_cons_of_mem _ hx)
    have hstep := deliver_other env d data s c kv.1 kv.2 hk
    simp only [fanOut, List.foldl_cons] at ih ⊢
    rw [ih hrest (deliver env d data s kv)]
    exact hstep

theorem fanOut_client (env : Env) (d : DataChan) (data : CloudEvent) (c : UUID)
    (ep : Option String) (subs : List (UUID × Option String))
    (hnd : (subs.map Prod.fst).Nodup) (hmem : (c, ep) ∈ subs) (s : World × Event) :
    ∃ s1 : World × Event, observe c s1.1 = observe c s.1 ∧
      observe c (fanOut env d data s subs).1 = observe c (deliver env d data s1 (c, ep)).1 := by
  obtain ⟨l1, l2, rfl⟩ := List.append_of_mem hmem
  rw [List.map_append, List.map_cons, List.nodup_append] at hnd
  obtain ⟨_, h2, hdis⟩ := hnd
  have hl1 : ∀ kv ∈ l1, kv.1 ≠ c := by
    intro kv hkv heq
    exact hdis (List.mem_map_of_mem Prod.fst hkv) (by simp [heq])
  have hl2 : ∀ kv ∈ l2, kv.1 ≠ c := by
    intro kv hkv heq
    have hc : c ∉ l2.map Prod.fst := (List.nodup_cons.mp h2).1
    exact hc (heq ▸ List.mem_map_of_mem Prod.fst hkv)
  refine ⟨fanOut env d data s l1, fanOut_others env d data c l1 hl1 s, ?_⟩
  have hsplit : fanOut env d data s (l1 ++ (c, ep) :: l2) =
      fanOut env d data (deliver env d data (fanOut env d data s l1) (c, ep)) l2 := by
    simp [fanOut, List.foldl_append]
  rw [hsplit]
  exact fanOut_others env d data c l2 hl2 _

theorem fanOut_posts_payload (env : Env) (d : DataChan) (data : CloudEvent)
    (subs : List (UUID × Option String)) (s : World × Event) :
    postedCloudEvents (fanOut env d data s subs).1.trace =
      postedCloudEvents s.1.trace ++
        List.replicate (subs.filter (fun kv => kv.2.isSome)).length data := by
  induction subs generalizing s with
  | nil => simp [fanOut]
  | cons kv rest ih =>
    simp only [fanOut, List.foldl_cons] at ih ⊢
    rw [ih (deliver env d data s kv), deliver_posts_payload]
    cases h : kv.2.isSome <;> simp [List.filter_cons, h, List.replicate_succ]

theorem step_client (env : Env) (w : World) (d : DataChan) (data : CloudEvent) (c : UUID)
    (ep : Option String) (hp : MultiSubscriberPath env d data)
    (hmem : (c, ep) ∈ env.GetClientIDAddressByResource d.Address) :
    ∃ s1 : World × Event, observe c s1.1 = observe c w ∧
      observe c (ProcessOutChannelStep env w d) = observe c (deliver env d data s1 (c, ep)).1 := by
  obtain ⟨hT, hS, hD, hE, hP, hL, hnd⟩ := hp
  obtain ⟨event, hev⟩ := Option.isSome_iff_exists.mp hE
  have hne : (env.GetClientIDAddressByResource d.Address).length ≠ 0 := by
    intro h0
    rw [List.length_eq_zero] at h0
    rw [h0] at hmem
    exact absurd hmem (List.not_mem_nil _)
  obtain ⟨s1, h1, h2⟩ := fanOut_client env d data c ep _ hnd hmem
    (((w.emit none (.HasSubscription d.Address)).emit none
      (.GetClientIDAddressByResource d.Address)), event)
  refine ⟨s1, ?_, ?_⟩
  · rw [h1]
    simp [observe, World.emit]
  · simp only [ProcessOutChannelStep, hT, hD, hev, hS, hP, hL]
    rw [if_pos hne]
    exact h2

theorem step_failure (env : Env) (w : World) (d : DataChan) (c : UUID)
    (hf : ConnectivityFailureFor c env d) (k thr ni nd : Nat) (cc : List Effect)
    (ho : observe c w = (k, thr, cc, ni, nd)) :
    (k + 1 < thr → ∃ cc1, observe c (ProcessOutChannelStep env w d) = (k + 1, thr, cc1, ni + 1, nd) ∧
        cc1.filter Effect.isSubscriptionCount = cc.filter Effect.isSubscriptionCount) ∧
      (thr ≤ k + 1 → ∃ k1 cc1,
        observe c (ProcessOutChannelStep env w d) = (k1, thr, cc1, ni + 1, nd + 1) ∧
        cc1.filter Effect.isSubscriptionCount =
          cc.filter Effect.isSubscriptionCount ++
            [.UpdateSubscriptionCount (-(env.DeleteAllSubscriptionsForClient c).1)]) := by
  obtain ⟨data, uri, err, hp, hmem, hr, hc⟩ := hf
  obtain ⟨s1, h1, h2⟩ := step_client env w d data c (some uri) hp hmem
  rw [ho] at h1
  constructor
  · intro hlt
    have hd := deliver_degraded env d data s1 c uri err k thr ni nd cc hr hc hlt h1
    exact ⟨_, h2.trans hd, by simp [Effect.isSubscriptionCount]⟩
  · intro hge
    have hd := deliver_condemned env d data s1 c uri err k thr ni nd cc hr hc hge h1
    refine ⟨_, _, h2.trans hd, ?_⟩
    cases (env.DeleteAllSubscriptionsForClient c).2 <;> simp [Effect.isSubscriptionCount]

theorem run_below (c : UUID) (thr : Nat) (msgs : List (Env × DataChan)) :
    ∀ (w : World) (k ni nd : Nat) (cc : List Effect),
      (∀ m ∈ msgs, ConnectivityFailureFor c m.1 m.2) →
      observe c w = (k, thr, cc, ni, nd) → k + msgs.length < thr →
      ∃ cc1, observe c (ProcessOutChannel w msgs) = (k + msgs.length, thr, cc1, ni + msgs.length, nd) ∧
        cc1.filter Effect.isSubscriptionCount = cc.filter Effect.isSubscriptionCount := by
  induction msgs with
  | nil =>
    intro w k ni nd cc _ ho _
    exact ⟨cc, by simpa [ProcessOutChannel] using ho, rfl⟩
  | cons m rest ih =>
    intro w k ni nd cc hall ho hlt
    have hm : ConnectivityFailureFor c m.1 m.2 := hall m (List.mem_cons_self _ _)
    have hrest : ∀ x ∈ rest, ConnectivityFailureFor c x.1 x.2 :=
      fun x hx => hall x (List.mem_cons_of_mem _ hx)
    simp only [List.length_cons] at hlt
    obtain ⟨cc1, h1, hf1⟩ := (step_failure m.1 w m.2 c hm k thr ni nd cc ho).1 (by omega)
    obtain ⟨cc2, h2, hf2⟩ := ih (ProcessOutChannelStep m.1 w m.2) (k + 1) (ni + 1) nd cc1 hrest h1
      (by omega)
    refine ⟨cc2, ?_, hf2.trans hf1⟩
    have hrun : ProcessOutChannel w (m :: rest) =
        ProcessOutChannel (ProcessOutChannelStep m.1 w m.2) rest := by
      simp [ProcessOutChannel]
    rw [hrun, h2]
    simp only [List.length_cons, Prod.mk.injEq, and_true, true_and]
    omega

/-! ## The concrete inputs take the multi-subscriber branch -/

theorem refusingEnv_path : MultiSubscriberPath refusingEnv newEvent samplePayload :=
  ⟨rfl, rfl, rfl, rfl, rfl, rfl, by decide⟩

theorem refusingEnv_fails : ConnectivityFailureFor 2 refusingEnv newEvent :=
  ⟨samplePayload, "http://u2", { asDNSError := false, isTimeout := false, isConnRefused := true },
    refusingEnv_path, by decide, by decide, rfl⟩

theorem transientEnv_path : MultiSubscriberPath transientEnv newEvent samplePayload :=
  ⟨rfl, rfl, rfl, rfl, rfl, rfl, by decide⟩

/-! ## The outbound dispatcher -/

/-- C1: starting from a zero counter, `threshold` messages whose delivery to
the client fails with a connectivity error delete the subscriptions of the
client exactly once, not before the last message, and update the
active-subscription count exactly once for that client, by minus the number
the registry reported for the last message. -/
theorem threshold_failures_delete_once (c : UUID) (w : World) (msgs : List (Env × DataChan))
    (hthr : 1 ≤ w.threshold) (hlen : msgs.length = w.threshold) (h0 : w.failCount c = 0)
    (hfail : ∀ m ∈ msgs, ConnectivityFailureFor c m.1 m.2) :
    (calls (ProcessOutChannel w msgs).trace).count (.DeleteAllSubscriptionsForClient c) =
        (calls w.trace).count (.DeleteAllSubscriptionsForClient c) + 1 ∧
      (calls (ProcessOutChannel w msgs.dropLast).trace).count
          (.DeleteAllSubscriptionsForClient c) =
        (calls w.trace).count (.DeleteAllSubscriptionsForClient c) ∧
      ∃ m, msgs.getLast? = some m ∧
        (clientCalls c (ProcessOutChannel w msgs).trace).filter Effect.isSubscriptionCount =
          (clientCalls c w.trace).filter Effect.isSubscriptionCount ++
            [.UpdateSubscriptionCount (-(m.1.DeleteAllSubscriptionsForClient c).1)] := by
  rcases List.eq_nil_or_concat msgs with rfl | ⟨L, b, hLb⟩
  · simp at hlen
    omega
  · rw [List.concat_eq_append] at hLb
    subst hLb
    have hL : ∀ m ∈ L, ConnectivityFailureFor c m.1 m.2 :=
      fun m hm => hfail m (List.mem_append_left _ hm)
    have hb : ConnectivityFailureFor c b.1 b.2 := hfail b (by simp)
    have hlen1 : L.length + 1 = w.threshold := by simpa using hlen
    have ho : observe c w = (0, w.threshold, clientCalls c w.trace,
        (calls w.trace).count (.IncFailCountToFail c),
        (calls w.trace).count (.DeleteAllSubscriptionsForClient c)) := by
      simp [observe, h0]
    obtain ⟨cc1, h1, hf1⟩ := run_below c w.threshold L w 0 _ _ _ hL ho (by omega)
    obtain ⟨k2, cc2, h2, hf2⟩ :=
      (step_failure b.1 (ProcessOutChannel w L) b.2 c hb _ _ _ _ _ h1).2 (by omega)
    have hrun : ProcessOutChannel w (L ++ [b]) =
        ProcessOutChannelStep b.1 (ProcessOutChannel w L) b.2 := by
      simp [ProcessOutChannel, List.foldl_append]
    simp only [observe, Prod.mk.injEq] at h1 h2
    refine ⟨?_, ?_, b, by simp, ?_⟩
    · rw [hrun]; exact h2.2.2.2.2
    · rw [List.dropLast_concat]; exact h1.2.2.2.2
    · rw [hrun, h2.2.2.1, hf2, hf1]

/-- Witness of C1 with threshold 2: two refused deliveries to client 2. -/
theorem threshold_failures_delete_once_witness :
    (calls (ProcessOutChannel (freshWorld 2)
        [(refusingEnv, newEvent), (refusingEnv, newEvent)]).trace).count
          (.DeleteAllSubscriptionsForClient 2) =
        (calls (freshWorld 2).trace).count (.DeleteAllSubscriptionsForClient 2) + 1 ∧
      (calls (ProcessOutChannel (freshWorld 2)
        [(refusingEnv, newEvent), (refusingEnv, newEvent)].dropLast).trace).count
          (.DeleteAllSubscriptionsForClient 2) =
        (calls (freshWorld 2).trace).count (.DeleteAllSubscriptionsForClient 2) ∧
      ∃ m, [(refusingEnv, newEvent), (refusingEnv, newEvent)].getLast? = some m ∧
        (clientCalls 2 (ProcessOutChannel (freshWorld 2)
            [(refusingEnv, newEvent), (refusingEnv, newEvent)]).trace).filter
            Effect.isSubscriptionCount =
          (clientCalls 2 (freshWorld 2).trace).filter Effect.isSubscriptionCount ++
            [.UpdateSubscriptionCount (-(m.1.DeleteAllSubscriptionsForClient 2).1)] :=
  threshold_failures_delete_once 2 (freshWorld 2)
    [(refusingEnv, newEvent), (refusingEnv, newEvent)] (by decide) rfl rfl
    (by
      intro m hm
      simp only [List.mem_cons, List.mem_singleton, List.not_mem_nil, or_false, or_self] at hm
      subst hm
      exact refusingEnv_fails)

/-- C2: in the code the cleanup record carries the `ClientID` of the routed
message, not the condemned subscriber: with threshold 1, client 2 refusing the
connection and a message whose own `ClientID` is 7, the subscriptions of
client 2 are deleted and the single store write names client 7. -/
theorem cleanup_names_message_client :
    (ProcessOutChannelStep refusingEnv (freshWorld 1) newEvent).trace =
      [(none, .HasSubscription "/a"),
       (none, .GetClientIDAddressByResource "/a"),
       (some 1, .PostCloudEvent "http://u1" samplePayload),
       (some 1, .ResetFailCount 1),
       (some 1, .UpdateEventReceivedCount "/a" .SUCCESS),
       (some 2, .PostCloudEvent "http://u2" samplePayload),
       (some 2, .UpdateEventReceivedCount "/a" .FAILED),
       (some 2, .IncFailCountToFail 2),
       (some 2, .DeleteAllSubscriptionsForClient 2),
       (some 2, .UpdateConfigMap [{ ClientID := 7, EndPointURI := none, Action := .DELETE }]),
       (some 2, .UpdateSubscriptionCount (-3))] ∧
      storeWrites (ProcessOutChannelStep refusingEnv (freshWorld 1) newEvent).trace =
        [[{ ClientID := 7, EndPointURI := none, Action := .DELETE }]] := by
  decide

/-- C3: in the code both subscribers of a fan-out are handed the unchanged
payload of the message, with the same identifier, while two fresh identifiers
are drawn for the local `event`. -/
theorem fanOut_posts_same_identifier :
    postedCloudEvents (ProcessOutChannelStep refusingEnv (freshWorld 3) newEvent).trace =
        [samplePayload, samplePayload] ∧
      (postedCloudEvents (ProcessOutChannelStep refusingEnv (freshWorld 3) newEvent).trace).map
          CloudEvent.ID = ["evt-1", "evt-1"] ∧
      (ProcessOutChannelStep refusingEnv (freshWorld 3) newEvent).uuidSeed = 2 := by
  decide

/-- C4: in the multi-subscriber branch a delivery that returns without
transport error, whatever its status code, leaves the counter of the client at
zero, at once and at the end of the message; the calls made for the client are
the post, the reset and one received-count update, and no increment of the
counter of the client is made while the message is processed. -/
theorem delivery_success_resets_counter (env : Env) (w : World) (d : DataChan)
    (data : CloudEvent) (c : UUID) (uri : String)
    (hp : MultiSubscriberPath env d data)
    (hmem : (c, some uri) ∈ env.GetClientIDAddressByResource d.Address)
    (hr : (env.PostCloudEvent uri data).2 = none) :
    (∀ s : World × Event, (deliver env d data s (c, some uri)).1.failCount c = 0) ∧
      (ProcessOutChannelStep env w d).failCount c = 0 ∧
      clientCalls c (ProcessOutChannelStep env w d).trace =
        clientCalls c w.trace ++
          [.PostCloudEvent uri data, .ResetFailCount c,
            .UpdateEventReceivedCount d.Address
              (if (env.PostCloudEvent uri data).1 = StatusNoContent then .SUCCESS
               else .FAILED)] ∧
      (calls (ProcessOutChannelStep env w d).trace).count (.IncFailCountToFail c) =
        (calls w.trace).count (.IncFailCountToFail c) := by
  have hbody : ∀ s : World × Event, observe c (deliver env d data s (c, some uri)).1 =
      (0, s.1.threshold,
        clientCalls c s.1.trace ++ [.PostCloudEvent uri data, .ResetFailCount c,
          .UpdateEventReceivedCount d.Address
            (if (env.PostCloudEvent uri data).1 = StatusNoContent then .SUCCESS else .FAILED)],
        (calls s.1.trace).count (.IncFailCountToFail c),
        (calls s.1.trace).count (.DeleteAllSubscriptionsForClient c)) :=
    fun s => deliver_success env d data s c uri _ _ _ _ _ hr rfl
  obtain ⟨s1, h1, h2⟩ := step_client env w d data c (some uri) hp hmem
  rw [hbody s1] at h2
  simp only [observe, Prod.mk.injEq] at h1 h2 hbody
  refine ⟨fun s => (hbody s).1, h2.1, ?_, ?_⟩
  · rw [h2.2.2.1, h1.2.2.1]
  · rw [h2.2.2.2.1, h1.2.2.2.1]

/-- Witness of C4: client 1 had failed five times and accepts the event. -/
theorem delivery_success_resets_counter_witness :
    (∀ s : World × Event,
        (deliver refusingEnv newEvent samplePayload s (1, some "http://u1")).1.failCount 1 = 0) ∧
      (ProcessOutChannelStep refusingEnv degradedWorld newEvent).failCount 1 = 0 ∧
      clientCalls 1 (ProcessOutChannelStep refusingEnv degradedWorld newEvent).trace =
        clientCalls 1 degradedWorld.trace ++
          [.PostCloudEvent "http://u1" samplePayload, .ResetFailCount 1,
            .UpdateEventReceivedCount newEvent.Address
              (if (refusingEnv.PostCloudEvent "http://u1" samplePayload).1 = StatusNoContent
               then .SUCCESS else .FAILED)] ∧
      (calls (ProcessOutChannelStep refusingEnv degradedWorld newEvent).trace).count
          (.IncFailCountToFail 1) =
        (calls degradedWorld.trace).count (.IncFailCountToFail 1) :=
  delivery_success_resets_counter refusingEnv degradedWorld newEvent samplePayload 1
    "http://u1" refusingEnv_path (by decide) (by decide)

/-- C5: in the multi-subscriber branch a transport error makes the dispatcher
call `IncFailCountToFail` for the client exactly when the error is a DNS error,
a timeout or a refused connection; for any other transport error the delivery
consists of the post and one received-failure update, and no counter changes. -/
theorem transport_error_classification (env : Env) (w : World) (d : DataChan)
    (data : CloudEvent) (c : UUID) (uri : String) (err : NetError)
    (hp : MultiSubscriberPath env d data)
    (hmem : (c, some uri) ∈ env.GetClientIDAddressByResource d.Address)
    (hr : (env.PostCloudEvent uri data).2 = some err) :
    (calls (ProcessOutChannelStep env w d).trace).count (.IncFailCountToFail c) =
        (calls w.trace).count (.IncFailCountToFail c) +
          (if err.asDNSError = true ∨ err.isTimeout = true ∨ err.isConnRefused = true
            then 1 else 0) ∧
      ((err.asDNSError = false ∧ err.isTimeout = false ∧ err.isConnRefused = false) →
        (∀ s : World × Event,
          (deliver env d data s (c, some uri)).1.failCount = s.1.failCount ∧
          (deliver env d data s (c, some uri)).1.trace =
            s.1.trace ++ [(some c, .PostCloudEvent uri data),
              (some c, .UpdateEventReceivedCount d.Address .FAILED)]) ∧
        (ProcessOutChannelStep env w d).failCount c = w.failCount c ∧
        clientCalls c (ProcessOutChannelStep env w d).trace =
          clientCalls c w.trace ++
            [.PostCloudEvent uri data, .UpdateEventReceivedCount d.Address .FAILED] ∧
        (calls (ProcessOutChannelStep env w d).trace).count
            (.DeleteAllSubscriptionsForClient c) =
          (calls w.trace).count (.DeleteAllSubscriptionsForClient c)) := by
  obtain ⟨s1, h1, h2⟩ := step_client env w d data c (some uri) hp hmem
  have ho1 : observe c s1.1 = (w.failCount c, w.threshold, clientCalls c w.trace,
      (calls w.trace).count (.IncFailCountToFail c),
      (calls w.trace).count (.DeleteAllSubscriptionsForClient c)) := h1
  cases hc : err.isConnectivity with
  | false =>
    have hd := deliver_transient env d data s1 c uri err _ _ _ _ _ hr hc ho1
    rw [hd] at h2
    simp only [observe, Prod.mk.injEq] at h2
    simp only [NetError.isConnectivity, Bool.or_eq_false_iff] at hc
    obtain ⟨⟨hc1, hc2⟩, hc3⟩ := hc
    refine ⟨by simp [hc1, hc2, hc3, h2.2.2.2.1], fun _ => ⟨?_, h2.1, h2.2.2.1, h2.2.2.2.2⟩⟩
    intro s
    simp [deliver, hr, hc1, hc2, hc3, World.emit]
  | true =>
    have hcases : err.asDNSError = true ∨ err.isTimeout = true ∨ err.isConnRefused = true := by
      simpa [NetError.isConnectivity, or_assoc] using hc
    refine ⟨?_, fun hno => ?_⟩
    · rw [if_pos hcases]
      by_cases hlt : w.failCount c + 1 < w.threshold
      · have hd := deliver_degraded env d data s1 c uri err _ _ _ _ _ hr hc hlt ho1
        rw [hd] at h2
        simp only [observe, Prod.mk.injEq] at h2
        exact h2.2.2.2.1
      · have hd := deliver_condemned env d data s1 c uri err _ _ _ _ _ hr hc (by omega) ho1
        rw [hd] at h2
        simp only [observe, Prod.mk.injEq] at h2
        exact h2.2.2.2.1
    · obtain ⟨a1, a2, a3⟩ := hno
      simp [NetError.isConnectivity, a1, a2, a3] at hc

/-- Witness of C5: client 2 fails with an error of no recognised kind. -/
theorem transport_error_classification_witness :
    (calls (ProcessOutChannelStep transientEnv degradedWorld newEvent).trace).count
        (.IncFailCountToFail 2) = 0 ∧
      (ProcessOutChannelStep transientEnv degradedWorld newEvent).failCount 2 = 5 ∧
      clientCalls 2 (ProcessOutChannelStep transientEnv degradedWorld newEvent).trace =
        [.PostCloudEvent "http://u2" samplePayload, .UpdateEventReceivedCount "/a" .FAILED] := by
  have h := transport_error_classification transientEnv degradedWorld newEvent samplePayload 2
    "http://u2" { asDNSError := false, isTimeout := false, isConnRefused := false }
    transientEnv_path (by decide) (by decide)
  obtain ⟨h1, h2⟩ := h
  obtain ⟨_, h3, h4, _⟩ := h2 ⟨rfl, rfl, rfl⟩
  exact ⟨by simpa [degradedWorld] using h1, by simpa [degradedWorld] using h3,
    by simpa [degradedWorld, newEvent] using h4⟩

/-- C6: an `EVENT` message with nil `Data` leaves the whole state as it was: no
call to any collaborator and no callback is recorded, no counter changes, and
the loop gives the same result as on the queue without that message. -/
theorem ProcessOutChannel_nil_data_dropped (env : Env) (w : World) (d : DataChan)
    (pre post : List (Env × DataChan)) (hT : d.Typ = .EVENT) (hD : d.Data = none) :
    ProcessOutChannelStep env w d = w ∧
      ProcessOutChannel w (pre ++ (env, d) :: post) = ProcessOutChannel w (pre ++ post) := by
  have hstep : ∀ w0 : World, ProcessOutChannelStep env w0 d = w0 := by
    intro w0
    simp [ProcessOutChannelStep, hT, hD]
  refine ⟨hstep w, ?_⟩
  simp [ProcessOutChannel, List.foldl_append, hstep]

/-- Witness of C6 on a queue of three messages. -/
theorem ProcessOutChannel_nil_data_dropped_witness :
    ProcessOutChannelStep quietEnv (freshWorld 3) nilDataEvent = freshWorld 3 ∧
      ProcessOutChannel (freshWorld 3)
          ([(quietEnv, statusAck)] ++ (quietEnv, nilDataEvent) :: [(quietEnv, newEvent)]) =
        ProcessOutChannel (freshWorld 3) ([(quietEnv, statusAck)] ++ [(quietEnv, newEvent)]) :=
  ProcessOutChannel_nil_data_dropped quietEnv (freshWorld 3) nilDataEvent
    [(quietEnv, statusAck)] [(quietEnv, newEvent)] rfl rfl

/-- C10: when the address has a legacy subscription, the step changes no failure
counter and makes no counter, deletion or multi-subscriber lookup call; when
the subscription has no endpoint, it updates the received-success metric of
the address once and makes no REST call. -/
theorem legacy_subscription_path (env : Env) (w : World) (d : DataChan) (data : CloudEvent)
    (event : Event) (sub : PubSub) (hT : d.Typ = .EVENT) (hS : d.Status = .NEW)
    (hD : d.Data = some data) (hE : env.GetCloudNativeEvents data = some event)
    (hP : d.ProcessEventFn = none) (hL : env.HasSubscription d.Address = some sub) :
    (ProcessOutChannelStep env w d).failCount = w.failCount ∧
      (ProcessOutChannelStep env w d).trace = w.trace ++ legacyCalls env d event sub ∧
      (legacyCalls env d event sub).all
        (fun p => !(p.2.isCounterUpdate || p.2.isDeletion || p.2.isSubscriberLookup)) = true ∧
      (sub.EndPointURI = none →
        (calls (legacyCalls env d event sub)).count
            (.UpdateEventReceivedCount d.Address .SUCCESS) = 1 ∧
          (calls (legacyCalls env d event sub)).all (fun e => !e.isRestCall) = true ∧
          (calls (legacyCalls env d event sub)).length = 2) := by
  cases hu : sub.EndPointURI with
  | none =>
    simp [ProcessOutChannelStep, hT, hS, hD, hE, hP, hL, hu, legacyCalls, World.emit,
      Effect.isCounterUpdate, Effect.isDeletion, Effect.isSubscriberLookup, Effect.isRestCall]
  | some uri =>
    cases hr : env.PostEvent uri { event with ID := sub.ID } <;>
      simp [ProcessOutChannelStep, hT, hS, hD, hE, hP, hL, hu, hr, legacyCalls, postHandler,
        World.emit, Effect.isCounterUpdate, Effect.isDeletion, Effect.isSubscriberLookup]

/-- Witness of C10: the legacy subscription of `/a` has no endpoint. -/
theorem legacy_subscription_path_witness :
    (ProcessOutChannelStep legacyEnv degradedWorld newEvent).trace =
      [(none, .HasSubscription "/a"), (none, .UpdateEventReceivedCount "/a" .SUCCESS)] ∧
      (ProcessOutChannelStep legacyEnv degradedWorld newEvent).failCount =
        degradedWorld.failCount := by
  have h := legacy_subscription_path legacyEnv degradedWorld newEvent samplePayload
    { ID := "evt-1", Body := "locked" }
    { ID := "sub-1", EndPointURI := none, Resource := "/a" } rfl rfl rfl rfl rfl rfl
  exact ⟨by simpa [legacyCalls, degradedWorld, newEvent] using h.2.1, h.1⟩

/-! ## The inbound fallback loop -/

/-- C7: a new event with payload makes `ProcessInChannel` send exactly one
message; its status is `FAILED` when the override callback is set and returns
an error, and `SUCCESS` otherwise, whatever status the callback wrote. -/
theorem ProcessInChannel_new_event_status (d : DataChan) (data : CloudEvent)
    (hT : d.Typ = .EVENT) (hS : d.Status = .NEW) (hD : d.Data = some data) :
    ∃ out : DataChanBody, ProcessInChannelStep d = .ok [out] ∧
      out.Status =
        (match d.OnReceiveOverrideFn with
          | none => Status.SUCCESS
          | some f => if (f data (synthesize d)).2.isSome then Status.FAILED else Status.SUCCESS) := by
  cases hf : d.OnReceiveOverrideFn with
  | none =>
    refine ⟨synthesize d, ?_, ?_⟩
    · simp [ProcessInChannelStep, applyOverride, hT, hS, hD, hf]
    · simp [synthesize]
  | some f =>
    cases hr : (f data (synthesize d)).2 with
    | none =>
      refine ⟨{ (f data (synthesize d)).1 with Status := .SUCCESS }, ?_, ?_⟩
      · simp [ProcessInChannelStep, applyOverride, hT, hS, hD, hf, hr]
      · simp [hr]
    | some e =>
      refine ⟨{ (f data (synthesize d)).1 with Status := .FAILED }, ?_, ?_⟩
      · simp [ProcessInChannelStep, applyOverride, hT, hS, hD, hf, hr]
      · simp [hr]

/-- Witness of C7: the callback fails, one message is sent and it is `FAILED`. -/
theorem ProcessInChannel_new_event_status_witness :
    ∃ out : DataChanBody, ProcessInChannelStep newEventFailingOverride = .ok [out] ∧
      out.Status = Status.FAILED := by
  obtain ⟨out, h1, h2⟩ :=
    ProcessInChannel_new_event_status newEventFailingOverride samplePayload rfl rfl rfl
  exact ⟨out, h1, by simpa [newEventFailingOverride] using h2⟩

/-- C8: in the code a new status request never reaches `EventOutCh`: whatever
the fields of the message, the step sends nothing or panics. -/
theorem ProcessInChannel_new_status_sends_nothing (address : String) (clientID : UUID)
    (data : Option CloudEvent) (processEventFn : Option (Event → Option String))
    (onReceive : Option (CloudEvent → DataChanBody → DataChanBody × Option String)) :
    ProcessInChannelStep
        { Address := address, ClientID := clientID, Data := data, Status := .NEW,
          Typ := .STATUS, ProcessEventFn := processEventFn,
          OnReceiveOverrideFn := onReceive } = .ok [] ∨
      ProcessInChannelStep
        { Address := address, ClientID := clientID, Data := data, Status := .NEW,
          Typ := .STATUS, ProcessEventFn := processEventFn,
          OnReceiveOverrideFn := onReceive } = .error .nilDereference := by
  cases onReceive with
  | none => left; simp [ProcessInChannelStep, applyOverride]
  | some f =>
    cases data with
    | none => right; simp [ProcessInChannelStep, applyOverride]
    | some ce =>
      left
      cases hr : (f ce (synthesize
        { Address := address, ClientID := clientID, Data := some ce, Status := .NEW,
          Typ := .STATUS, ProcessEventFn := processEventFn,
          OnReceiveOverrideFn := some f })).2 <;>
        simp [ProcessInChannelStep, applyOverride, hr]

/-- C9: in the code a new event with nil `Data` panics in `ProcessInChannel`,
with or without callbacks, and the loop processes no later message. -/
theorem ProcessInChannel_nil_data_panics (address : String) (clientID : UUID)
    (processEventFn : Option (Event → Option String))
    (onReceive : Option (CloudEvent → DataChanBody → DataChanBody × Option String))
    (rest : List DataChan) :
    ProcessInChannelStep
        { Address := address, ClientID := clientID, Data := none, Status := .NEW,
          Typ := .EVENT, ProcessEventFn := processEventFn,
          OnReceiveOverrideFn := onReceive } = .error .nilDereference ∧
      ProcessInChannel
        ({ Address := address, ClientID := clientID, Data := none, Status := .NEW,
           Typ := .EVENT, ProcessEventFn := processEventFn,
           OnReceiveOverrideFn := onReceive } :: rest) = .error .nilDereference := by
  constructor <;> simp [ProcessInChannel, ProcessInChannelStep]

end CloudEventProxy
